import Mathlib

/-!
Verification development for the college-football-pick6 draft coordination
core.  The pure snake-order calculator, the frontend pick/lobby guards and
the database uniqueness constraints are embedded from the repository source
(web-app React components and `normalized_schema.sql`); the server-side
Pick Validator & Executor and Draft Lifecycle Controller live in backend
lambda code that is not part of the source tree, so those operations are
modelled from the specification (sections 4.2 and 4.3) and verified against
the stated invariants and scenarios.
-/

namespace Pick6

/-- Result record of the snake-order calculator, mirroring the object
`{ round, pickInRound, isReverseRound }` returned by `getSnakeDraftInfo`
in the draft-board component. -/
structure SnakeDraftInfo where
  round : Nat
  pickInRound : Nat
  isReverseRound : Bool
deriving Repr, DecidableEq

/-- Embedding of `getSnakeDraftInfo` (draft-board component):
`round = Math.ceil(currentPickOverall / totalPlayers)` (for positive
arguments this is `(p + n - 1) / n` in natural division);
`pickInRound = ((currentPickOverall - 1) % totalPlayers) + 1`, flipped to
`totalPlayers - pickInRound + 1` when the round is even.  The JS body is
straight-line arithmetic with no input validation and no throw. -/
def getSnakeDraftInfo (currentPickOverall totalPlayers : Nat) : SnakeDraftInfo :=
  let round := (currentPickOverall + totalPlayers - 1) / totalPlayers
  let isReverseRound := round % 2 == 0
  let pickInRound := ((currentPickOverall - 1) % totalPlayers) + 1
  { round := round
    pickInRound := if isReverseRound then totalPlayers - pickInRound + 1 else pickInRound
    isReverseRound := isReverseRound }

/-- Error taxonomy of the specification (section 7), plus the
`InvalidArgument` condition named for the Draft Order Calculator. -/
inductive StateErrorCode where
  | draftNotActive
  | invalidLifecycleState
deriving Repr, DecidableEq

/-- Conflict causes of a rejected pick (section 4.3, checks 3 and 4). -/
inductive ConflictCode where
  | itemTaken
  | participantComplete
deriving Repr, DecidableEq

/-- Error values surfaced by the draft operations. -/
inductive DraftError where
  | validationError
  | authorizationError
  | stateError (code : StateErrorCode)
  | turnViolation
  | conflictError (code : ConflictCode)
  | notFoundError
  | serviceError
  | invalidArgument
deriving Repr, DecidableEq

/-- Boolean success test on an `Except` result. -/
def isOkE {ε α : Type} : Except ε α → Bool
  | .ok _ => true
  | .error _ => false

/-- Except-typed view of the source calculator.  The JS body of
`getSnakeDraftInfo` is straight-line arithmetic: it contains no input
validation and no throw, so its fallible embedding returns `.ok`
unconditionally, for every input. -/
def getSnakeDraftInfoE (currentPickOverall totalPlayers : Nat) :
    Except DraftError SnakeDraftInfo :=
  .ok (getSnakeDraftInfo currentPickOverall totalPlayers)

/-- Modelled from the spec: section 4.1 `locate`, written from the spec
formulas (`round = ceil(pickOverall / participantCount)` as a rational
ceiling, position flip on even rounds) including the `InvalidArgument`
signal the spec requires for `participantCount < 1` or `pickOverall < 1`.
Used to compare the spec contract against the source calculator. -/
def locate (pickOverall participantCount : Nat) :
    Except DraftError (Nat × Nat × Bool) :=
  if pickOverall < 1 ∨ participantCount < 1 then
    .error .invalidArgument
  else
    let round := (⌈(pickOverall : ℚ) / (participantCount : ℚ)⌉).toNat
    let pos0 := ((pickOverall - 1) % participantCount) + 1
    let pos := if round % 2 = 0 then participantCount - pos0 + 1 else pos0
    .ok (round, pos, decide (round % 2 = 0))

/-- League lifecycle status (`leagues.status` in `normalized_schema.sql`:
pre_draft, drafting, active, completed). -/
inductive LeagueStatus where
  | preDraft
  | drafting
  | active
  | completed
deriving Repr, DecidableEq

/-- Draft session status (spec section 3: not_started, active, complete). -/
inductive SessionStatus where
  | notStarted
  | active
  | complete
deriving Repr, DecidableEq

/-- League record: creator reference, lifecycle status and pick cap per
participant (`leagues.created_by`, `leagues.status`,
`leagues.max_teams_per_user`). -/
structure League where
  creator : Nat
  status : LeagueStatus
  maxPicksPerParticipant : Nat
deriving Repr, DecidableEq

/-- Participant within the league (`league_teams` row): user identity and
draft position (0 until `start_draft` assigns positions 1..N). -/
structure Participant where
  userId : Nat
  draftPosition : Nat
deriving Repr, DecidableEq

/-- Draft session (`league_drafts` row): current overall pick, total pick
count and lifecycle timestamps. -/
structure DraftSession where
  currentPickOverall : Nat
  totalPicks : Nat
  status : SessionStatus
  startedAt : Option Nat
  completedAt : Option Nat
deriving Repr, DecidableEq

/-- Committed pick (`league_team_school_assignments` row): participant,
item (school), round, overall pick number and commit time. -/
structure Pick where
  participantId : Nat
  itemId : Nat
  round : Nat
  pickOverall : Nat
  committedAt : Nat
deriving Repr, DecidableEq

/-- Authoritative per-league draft store state.  Every operation of the
core is scoped to one league (spec section 5: no cross-league ordering or
interaction), so the system is modelled one league at a time; the
`leagueId` columns of the schema become implicit and the schema uniqueness
constraints `UNIQUE(league_id, school_id)` and
`UNIQUE(league_id, draft_pick_overall)` become uniqueness of `itemId` and
`pickOverall` inside `picks`. -/
structure DraftState where
  league : League
  participants : List Participant
  session : Option DraftSession
  picks : List Pick
deriving Repr, DecidableEq

/-- A league as created externally: pre_draft, no members, no session, no
picks. -/
def initState (creator cap : Nat) : DraftState :=
  { league := { creator := creator, status := .preDraft, maxPicksPerParticipant := cap }
    participants := []
    session := none
    picks := [] }

/-- Modelled from the spec: participant creation (external join, spec
section 3) — a user joins a pre_draft league once; `draftPosition` stays
unassigned (0) until `start_draft`. -/
def joinLeague (s : DraftState) (uid : Nat) : DraftState :=
  if s.league.status = .preDraft ∧ ∀ q ∈ s.participants, q.userId ≠ uid then
    { s with participants := s.participants ++ [{ userId := uid, draftPosition := 0 }] }
  else s

/-- Modelled from the spec: `start_draft` assigns stable draft positions in
join order (1..N), the implementer's documented choice in section 4.2. -/
def assignPositions (ps : List Participant) : List Participant :=
  ps.enum.map (fun ip => { userId := ip.2.userId, draftPosition := ip.1 + 1 })

/-- The on-the-clock participant: the one whose `draftPosition` equals the
calculator position for the session's `currentPickOverall` and the live
participant count (spec section 4.1). -/
def onTheClock (s : DraftState) : Option Nat :=
  match s.session with
  | none => none
  | some sess =>
    let info := getSnakeDraftInfo sess.currentPickOverall s.participants.length
    (s.participants.find? (fun q => q.draftPosition = info.pickInRound)).map
      (fun q => q.userId)

/-- Modelled from the spec: the Pick Validator & Executor
(`submitPick(leagueId, participantId, itemId)`, spec section 4.3).  The
missing backend lambda is modelled by its contract: the four precondition
checks in order (session active, on the clock, item unclaimed, under cap),
then the atomic insert of the Pick, the counter increment and, when the
new counter exceeds `totalPicks`, the completion transition of section
4.2 — all in one step.  Errors leave the state untouched. -/
def submitPick (s : DraftState) (pid itemId now : Nat) :
    DraftState × Except DraftError Pick :=
  match s.session with
  | none => (s, .error (.stateError .draftNotActive))
  | some sess =>
    if sess.status = .active then
      if onTheClock s = some pid then
        if ∀ q ∈ s.picks, q.itemId ≠ itemId then
          if (s.picks.filter (fun q => q.participantId = pid)).length <
              s.league.maxPicksPerParticipant then
            let info := getSnakeDraftInfo sess.currentPickOverall s.participants.length
            let pk : Pick :=
              { participantId := pid, itemId := itemId, round := info.round
                pickOverall := sess.currentPickOverall, committedAt := now }
            if sess.totalPicks < sess.currentPickOverall + 1 then
              ({ league := { s.league with status := .active }
                 participants := s.participants
                 session := some { sess with
                   currentPickOverall := sess.currentPickOverall + 1
                   status := .complete
                   completedAt := some now }
                 picks := pk :: s.picks }, .ok pk)
            else
              ({ s with
                 session := some { sess with
                   currentPickOverall := sess.currentPickOverall + 1 }
                 picks := pk :: s.picks }, .ok pk)
          else (s, .error (.conflictError .participantComplete))
        else (s, .error (.conflictError .itemTaken))
      else (s, .error .turnViolation)
    else (s, .error (.stateError .draftNotActive))

/-- Modelled from the spec: `start_draft` (spec section 4.2) — creator-only
on a pre_draft league with at least 2 joined participants; assigns draft
positions, creates the session with `currentPickOverall = 1` and
`totalPicks = participantCount * cap`, and sets the league drafting.
Errors leave the state untouched. -/
def startDraft (s : DraftState) (requesterId now : Nat) :
    DraftState × Except DraftError DraftSession :=
  if s.league.status = .preDraft then
    if requesterId = s.league.creator then
      if 2 ≤ s.participants.length then
        let sess : DraftSession :=
          { currentPickOverall := 1
            totalPicks := s.participants.length * s.league.maxPicksPerParticipant
            status := .active
            startedAt := some now
            completedAt := none }
        ({ league := { s.league with status := .drafting }
           participants := assignPositions s.participants
           session := some sess
           picks := s.picks }, .ok sess)
      else (s, .error .validationError)
    else (s, .error .authorizationError)
  else (s, .error (.stateError .invalidLifecycleState))

/-- Modelled from the spec: `reset_draft` (spec section 4.2) — creator-only
on a drafting league; deletes all Pick rows and the DraftSession, sets the
league back to pre_draft, and returns the number of picks removed. -/
def resetDraft (s : DraftState) (requesterId : Nat) :
    DraftState × Except DraftError Nat :=
  if s.league.status = .drafting then
    if requesterId = s.league.creator then
      ({ league := { s.league with status := .preDraft }
         participants := s.participants
         session := none
         picks := [] }, .ok s.picks.length)
    else (s, .error .authorizationError)
  else (s, .error (.stateError .invalidLifecycleState))

/-- Modelled from the spec: `skip_draft` (spec section 4.2) — creator-only
bypass from pre_draft to active with at least one participant and no
DraftSession created. -/
def skipDraft (s : DraftState) (requesterId : Nat) :
    DraftState × Except DraftError Unit :=
  if s.league.status = .preDraft then
    if requesterId = s.league.creator then
      if 1 ≤ s.participants.length then
        ({ s with league := { s.league with status := .active } }, .ok ())
      else (s, .error .validationError)
    else (s, .error .authorizationError)
  else (s, .error (.stateError .invalidLifecycleState))

/-- Embedding of the lobby gate in `LeagueLobbyView.jsx`:
`canStartDraft = isCreator && members.length >= 2`. -/
def canStartDraft (isCreator : Bool) (memberCount : Nat) : Bool :=
  isCreator && decide (2 ≤ memberCount)

/-- The Pick row inserted by a successful commit at state `s`. -/
def committedPick (s : DraftState) (sess : DraftSession) (pid item now : Nat) : Pick :=
  { participantId := pid, itemId := item
    round := (getSnakeDraftInfo sess.currentPickOverall s.participants.length).round
    pickOverall := sess.currentPickOverall, committedAt := now }

/-- Two Pick rows of one league never agree on `pickOverall` or on
`itemId` — the per-league reading of the schema constraints
`UNIQUE(league_id, draft_pick_overall)` and `UNIQUE(league_id, school_id)`. -/
def PickDistinct (a b : Pick) : Prop :=
  a.pickOverall ≠ b.pickOverall ∧ a.itemId ≠ b.itemId

/-- Pick-count bookkeeping: without a session there are no picks; with a
session, `count(Pick) + 1 = currentPickOverall` and every committed pick
sits strictly below the current pick pointer. -/
def PickBounds (s : DraftState) : Prop :=
  (s.session = none → s.picks = []) ∧
  ∀ sess, s.session = some sess →
    s.picks.length + 1 = sess.currentPickOverall ∧
    ∀ q ∈ s.picks, q.pickOverall + 1 ≤ sess.currentPickOverall

/-- A pre_draft league has no DraftSession. -/
def StatusOk (s : DraftState) : Prop :=
  s.league.status = .preDraft → s.session = none

/-- The store invariant maintained by every operation. -/
def Inv (s : DraftState) : Prop :=
  PickBounds s ∧ s.picks.Pairwise PickDistinct ∧ StatusOk s

/-- One operation of the core applied with arbitrary arguments (errors
included: a rejected call keeps the state). -/
inductive Step : DraftState → DraftState → Prop where
  | join (s : DraftState) (uid : Nat) : Step s (joinLeague s uid)
  | start (s : DraftState) (r now : Nat) : Step s (startDraft s r now).1
  | reset (s : DraftState) (r : Nat) : Step s (resetDraft s r).1
  | skip (s : DraftState) (r : Nat) : Step s (skipDraft s r).1
  | pick (s : DraftState) (pid item now : Nat) : Step s (submitPick s pid item now).1

/-- States reachable from a freshly created league by any sequence of
operations. -/
inductive Reachable : DraftState → Prop where
  | init (creator cap : Nat) : Reachable (initState creator cap)
  | step {s t : DraftState} : Reachable s → Step s t → Reachable t

/-- Concrete scenario: league of creator 0 with cap 2, joined by users
1, 2, 3, 4 — still pre_draft. -/
def lobbyState : DraftState :=
  joinLeague (joinLeague (joinLeague (joinLeague (initState 0 2) 1) 2) 3) 4

/-- The scenario league right after `start_draft`: 4 participants at draft
positions 1..4, `totalPicks = 8`, `currentPickOverall = 1`. -/
def draftingState : DraftState := (startDraft lobbyState 0 100).1

/-- Scenario state after pick 1 (user 1 takes item 11). -/
def state1 : DraftState := (submitPick draftingState 1 11 101).1

/-- Scenario state after pick 2 (user 2 takes item 12). -/
def state2 : DraftState := (submitPick state1 2 12 102).1

/-- Scenario state after pick 3 (user 3 takes item 13). -/
def state3 : DraftState := (submitPick state2 3 13 103).1

/-- Scenario state after pick 4 (user 4 takes item 14). -/
def state4 : DraftState := (submitPick state3 4 14 104).1

/-- Scenario state after pick 5 (round 2 reverses: user 4 takes item 15). -/
def state5 : DraftState := (submitPick state4 4 15 105).1

/-- Scenario state after pick 6 (user 3 takes item 16). -/
def state6 : DraftState := (submitPick state5 3 16 106).1

/-- Scenario state after pick 7 (user 2 takes item 17). -/
def state7 : DraftState := (submitPick state6 2 17 107).1

/-- Client-side view of `getDraftStatus` (spec section 6). -/
structure DraftStatusView where
  sessionStatus : Option SessionStatus
  currentPickOverall : Option Nat
  onTheClockParticipantId : Option Nat
  isCallerTurn : Bool
  totalPicks : Option Nat
  draftOrder : List Nat
deriving Repr, DecidableEq

/-- Query operation `getDraftStatus(leagueId, callerId)` (spec section 6),
computed from the authoritative store state. -/
def getDraftStatus (s : DraftState) (callerId : Nat) : DraftStatusView :=
  { sessionStatus := s.session.map (fun sess => sess.status)
    currentPickOverall := s.session.map (fun sess => sess.currentPickOverall)
    onTheClockParticipantId := onTheClock s
    isCallerTurn := onTheClock s == some callerId
    totalPicks := s.session.map (fun sess => sess.totalPicks)
    draftOrder := s.participants.map (fun q => q.userId) }

/-- Query operation `getDraftBoard(leagueId)` (spec section 6): committed
picks in commit order. -/
def getDraftBoard (s : DraftState) : List Pick := s.picks.reverse

/-- Query backing the `my-teams` endpoint: the caller's claimed items. -/
def getMyTeams (s : DraftState) (uid : Nat) : List Nat :=
  (s.picks.filter (fun q => q.participantId = uid)).map (fun q => q.itemId)

/-- Query backing the available-schools endpoint: catalog items not yet
claimed in this league. -/
def getAvailableItems (catalog : List Nat) (s : DraftState) : List Nat :=
  catalog.filter (fun i => ∀ q ∈ s.picks, q.itemId ≠ i)

/-- The client-held data refreshed by `TeamDraftView`: my teams, draft
board, draft status and available teams. -/
structure Snapshot where
  myTeams : List Nat
  board : List Pick
  status : DraftStatusView
  available : List Nat
deriving Repr, DecidableEq

/-- One full re-fetch of the four draft queries, as performed by
`loadMyTeams` / `loadDraftBoard` / `loadDraftStatus` / `loadAvailableTeams`
in `TeamDraftView`. -/
def refetchAll (catalog : List Nat) (s : DraftState) (uid : Nat) : Snapshot :=
  { myTeams := getMyTeams s uid
    board := getDraftBoard s
    status := getDraftStatus s uid
    available := getAvailableItems catalog s }

/-- Embedding of `handleDraftUpdate` in `TeamDraftView`: on any
draft-update notification the handler ignores the payload (`data` is only
logged) and the previous client data, and re-fetches all four queries
against the current server state. -/
def handleDraftUpdate (payload : String) (catalog : List Nat) (server : DraftState)
    (uid : Nat) (client : Snapshot) : Snapshot :=
  refetchAll catalog server uid

/-- Natural-division form of the ceiling used by `getSnakeDraftInfo`:
for `1 ≤ p` and `1 ≤ n`, `(p + n - 1) / n` is the ceiling of the rational
division `p / n`. -/
theorem natCeil_div_eq (p n : Nat) (hp : 1 ≤ p) (hn : 1 ≤ n) :
    (((p + n - 1) / n : Nat) : ℤ) = ⌈(p : ℚ) / (n : ℚ)⌉ := by
  have hn0 : (0 : ℚ) < (n : ℚ) := by exact_mod_cast hn
  have hdm := Nat.div_add_mod (p + n - 1) n
  have hmlt : (p + n - 1) % n < n := Nat.mod_lt _ (by omega)
  set q : Nat := (p + n - 1) / n with hq
  set r : Nat := (p + n - 1) % n with hr
  have hA : p ≤ n * q := by omega
  have hB : n * q < p + n := by omega
  have hAq : (p : ℚ) ≤ (n : ℚ) * (q : ℚ) := by exact_mod_cast hA
  have hBq : (n : ℚ) * (q : ℚ) < (p : ℚ) + (n : ℚ) := by exact_mod_cast hB
  symm
  rw [Int.ceil_eq_iff]
  constructor
  · rw [lt_div_iff₀ hn0]
    push_cast
    nlinarith
  · rw [div_le_iff₀ hn0]
    push_cast
    nlinarith

/-- C1: for every `pickOverall ≥ 1` and `participantCount ≥ 1` the
calculator returns `round = ceil(pickOverall / participantCount)` and
`positionInRound = ((pickOverall - 1) mod participantCount) + 1`, with the
position replaced by `participantCount - positionInRound + 1` exactly when
the round is even; and for 4 participants, picks 1..8 map to the draft
positions `[1, 2, 3, 4, 4, 3, 2, 1]`. -/
theorem getSnakeDraftInfo_matches_formulas :
    (∀ p n, 1 ≤ p → 1 ≤ n →
      (((getSnakeDraftInfo p n).round : ℤ) = ⌈(p : ℚ) / (n : ℚ)⌉ ∧
      (getSnakeDraftInfo p n).pickInRound =
        (if (getSnakeDraftInfo p n).round % 2 = 0
          then n - (((p - 1) % n) + 1) + 1
          else ((p - 1) % n) + 1))) ∧
    (List.range 8).map (fun i => (getSnakeDraftInfo (i + 1) 4).pickInRound) =
      [1, 2, 3, 4, 4, 3, 2, 1] := by
  refine ⟨fun p n hp hn => ⟨natCeil_div_eq p n hp hn, ?_⟩, by decide⟩
  by_cases hpar : (p + n - 1) / n % 2 = 0
  · simp [getSnakeDraftInfo, hpar]
  · simp [getSnakeDraftInfo, hpar]

/-- Witness for C1 at `pickOverall = 6`, `participantCount = 4`. -/
theorem getSnakeDraftInfo_matches_formulas_witness :
    ((getSnakeDraftInfo 6 4).round : ℤ) = ⌈(6 : ℚ) / (4 : ℚ)⌉ ∧
    (getSnakeDraftInfo 6 4).pickInRound =
      (if (getSnakeDraftInfo 6 4).round % 2 = 0
        then 4 - (((6 - 1) % 4) + 1) + 1
        else ((6 - 1) % 4) + 1) :=
  getSnakeDraftInfo_matches_formulas.1 6 4 (by decide) (by decide)

/-- C10: for every `pickOverall ≥ 1` and `totalPlayers ≥ 1` the calculator
returns a round at least 1 and a position in round between 1 and
`totalPlayers`, so the on-the-clock position always names an existing
draft slot. -/
theorem getSnakeDraftInfo_in_range (p n : Nat) (hp : 1 ≤ p) (hn : 1 ≤ n) :
    1 ≤ (getSnakeDraftInfo p n).round ∧
    1 ≤ (getSnakeDraftInfo p n).pickInRound ∧
    (getSnakeDraftInfo p n).pickInRound ≤ n := by
  have hmod : (p - 1) % n < n := Nat.mod_lt _ (by omega)
  have hdiv : 1 ≤ (p + n - 1) / n := by
    rw [Nat.one_le_div_iff (by omega)]
    omega
  simp only [getSnakeDraftInfo, beq_iff_eq]
  refine ⟨hdiv, ?_⟩
  split <;> omega

/-- Witness for C10 at `pickOverall = 9`, `totalPlayers = 4`. -/
theorem getSnakeDraftInfo_in_range_witness :
    1 ≤ (getSnakeDraftInfo 9 4).round ∧
    1 ≤ (getSnakeDraftInfo 9 4).pickInRound ∧
    (getSnakeDraftInfo 9 4).pickInRound ≤ 4 :=
  getSnakeDraftInfo_in_range 9 4 (by decide) (by decide)

/-- C8 counterexample: called with `totalPlayers = 0` (fewer than 1), the
source calculator does not signal any `InvalidArgument` condition — the JS
body has no validation and returns an object normally, so the fallible
embedding of the call succeeds. -/
theorem getSnakeDraftInfo_no_signal_counterexample :
    isOkE (getSnakeDraftInfoE 1 0) = true := rfl

/-- C8 as amended: the calculator is pure, with no side effects and no
failure modes for `pickOverall ≥ 1` and `participantCount ≥ 1`, where it
agrees with the spec `locate` contract; but for `pickOverall < 1` or
`participantCount < 1` it does not signal `InvalidArgument` (it returns
normally, unlike the spec-modelled `locate`, which errors there). -/
theorem getSnakeDraftInfo_total_no_validation (p n : Nat) :
    (isOkE (getSnakeDraftInfoE p n) = true) ∧
    (p < 1 ∨ n < 1 → locate p n = .error .invalidArgument) ∧
    (1 ≤ p → 1 ≤ n →
      locate p n = .ok ((getSnakeDraftInfo p n).round,
        (getSnakeDraftInfo p n).pickInRound,
        (getSnakeDraftInfo p n).isReverseRound)) := by
  refine ⟨rfl, fun h => by unfold locate; rw [if_pos h], fun hp hn => ?_⟩
  have hceil : (((p + n - 1) / n : Nat) : ℤ) = ⌈(p : ℚ) / (n : ℚ)⌉ :=
    natCeil_div_eq p n hp hn
  have htn : (⌈(p : ℚ) / (n : ℚ)⌉).toNat = (p + n - 1) / n := by
    generalize hd : (p + n - 1) / n = d at hceil ⊢
    omega
  unfold locate
  rw [if_neg (by omega), htn]
  by_cases hpar : (p + n - 1) / n % 2 = 0
  · simp [getSnakeDraftInfo, hpar]
  · simp [getSnakeDraftInfo, hpar]

/-- Witness for C8 (amended) at `pickOverall = 3`, `participantCount = 2`. -/
theorem getSnakeDraftInfo_total_no_validation_witness :
    locate 3 2 = .ok ((getSnakeDraftInfo 3 2).round,
      (getSnakeDraftInfo 3 2).pickInRound,
      (getSnakeDraftInfo 3 2).isReverseRound) :=
  (getSnakeDraftInfo_total_no_validation 3 2).2.2 (by decide) (by decide)

theorem submitPick_no_session (s : DraftState) (pid item now : Nat)
    (hs : s.session = none) :
    submitPick s pid item now = (s, .error (.stateError .draftNotActive)) := by
  unfold submitPick
  simp only [hs]

theorem submitPick_not_active (s : DraftState) (sess : DraftSession)
    (pid item now : Nat) (hs : s.session = some sess)
    (hstat : sess.status ≠ .active) :
    submitPick s pid item now = (s, .error (.stateError .draftNotActive)) := by
  unfold submitPick
  simp only [hs]
  rw [if_neg hstat]

theorem submitPick_wrong_turn (s : DraftState) (sess : DraftSession)
    (pid item now : Nat) (hs : s.session = some sess)
    (hstat : sess.status = .active) (hturn : onTheClock s ≠ some pid) :
    submitPick s pid item now = (s, .error .turnViolation) := by
  unfold submitPick
  simp only [hs]
  rw [if_pos hstat, if_neg hturn]

theorem submitPick_item_taken (s : DraftState) (sess : DraftSession)
    (pid item now : Nat) (hs : s.session = some sess)
    (hstat : sess.status = .active) (hturn : onTheClock s = some pid)
    (hfresh : ¬ ∀ q ∈ s.picks, q.itemId ≠ item) :
    submitPick s pid item now = (s, .error (.conflictError .itemTaken)) := by
  unfold submitPick
  simp only [hs]
  rw [if_pos hstat, if_pos hturn, if_neg hfresh]

theorem submitPick_at_cap (s : DraftState) (sess : DraftSession)
    (pid item now : Nat) (hs : s.session = some sess)
    (hstat : sess.status = .active) (hturn : onTheClock s = some pid)
    (hfresh : ∀ q ∈ s.picks, q.itemId ≠ item)
    (hcap : ¬ (s.picks.filter (fun q => q.participantId = pid)).length <
      s.league.maxPicksPerParticipant) :
    submitPick s pid item now = (s, .error (.conflictError .participantComplete)) := by
  unfold submitPick
  simp only [hs]
  rw [if_pos hstat, if_pos hturn, if_pos hfresh, if_neg hcap]

theorem submitPick_commit_continue (s : DraftState) (sess : DraftSession)
    (pid item now : Nat) (hs : s.session = some sess)
    (hstat : sess.status = .active) (hturn : onTheClock s = some pid)
    (hfresh : ∀ q ∈ s.picks, q.itemId ≠ item)
    (hcap : (s.picks.filter (fun q => q.participantId = pid)).length <
      s.league.maxPicksPerParticipant)
    (hmore : ¬ sess.totalPicks < sess.currentPickOverall + 1) :
    submitPick s pid item now =
      ({ league := s.league
         participants := s.participants
         session := some { sess with currentPickOverall := sess.currentPickOverall + 1 }
         picks := committedPick s sess pid item now :: s.picks },
       .ok (committedPick s sess pid item now)) := by
  unfold submitPick
  simp only [hs]
  rw [if_pos hstat, if_pos hturn, if_pos hfresh, if_pos hcap, if_neg hmore]
  rfl

theorem submitPick_commit_complete (s : DraftState) (sess : DraftSession)
    (pid item now : Nat) (hs : s.session = some sess)
    (hstat : sess.status = .active) (hturn : onTheClock s = some pid)
    (hfresh : ∀ q ∈ s.picks, q.itemId ≠ item)
    (hcap : (s.picks.filter (fun q => q.participantId = pid)).length <
      s.league.maxPicksPerParticipant)
    (hlast : sess.totalPicks < sess.currentPickOverall + 1) :
    submitPick s pid item now =
      ({ league := { s.league with status := .active }
         participants := s.participants
         session := some { sess with
           currentPickOverall := sess.currentPickOverall + 1
           status := .complete
           completedAt := some now }
         picks := committedPick s sess pid item now :: s.picks },
       .ok (committedPick s sess pid item now)) := by
  unfold submitPick
  simp only [hs]
  rw [if_pos hstat, if_pos hturn, if_pos hfresh, if_pos hcap, if_pos hlast]
  rfl

theorem inv_initState (creator cap : Nat) : Inv (initState creator cap) :=
  ⟨⟨fun _ => rfl, fun sess hs => by simp [initState] at hs⟩, List.Pairwise.nil,
    fun _ => rfl⟩

theorem inv_joinLeague (s : DraftState) (uid : Nat) (h : Inv s) :
    Inv (joinLeague s uid) := by
  unfold joinLeague
  split
  · exact h
  · exact h

theorem inv_startDraft (s : DraftState) (r now : Nat) (h : Inv s) :
    Inv (startDraft s r now).1 := by
  unfold startDraft
  split
  · next hpre =>
    split
    · next hcr =>
      split
      · next hlen =>
        have hsess : s.session = none := h.2.2 hpre
        have hpicks : s.picks = [] := h.1.1 hsess
        refine ⟨⟨fun hnone => by simp at hnone, fun sess2 hsess2 => ?_⟩, ?_, ?_⟩
        · obtain rfl : _ = sess2 := Option.some.inj hsess2
          simp [hpicks]
        · simp [hpicks]
        · intro hcontra
          simp at hcontra
      · exact h
    · exact h
  · exact h

theorem inv_resetDraft (s : DraftState) (r : Nat) (h : Inv s) :
    Inv (resetDraft s r).1 := by
  unfold resetDraft
  split
  · split
    · exact ⟨⟨fun _ => rfl, fun sess2 hsess2 => by simp at hsess2⟩,
        List.Pairwise.nil, fun _ => rfl⟩
    · exact h
  · exact h

theorem inv_skipDraft (s : DraftState) (r : Nat) (h : Inv s) :
    Inv (skipDraft s r).1 := by
  unfold skipDraft
  split
  · next hpre =>
    split
    · split
      · refine ⟨h.1, h.2.1, ?_⟩
        intro hcontra
        simp at hcontra
      · exact h
    · exact h
  · exact h

theorem inv_submitPick (s : DraftState) (pid item now : Nat) (h : Inv s) :
    Inv (submitPick s pid item now).1 := by
  cases hs : s.session with
  | none => rw [submitPick_no_session s pid item now hs]; exact h
  | some sess =>
    by_cases hstat : sess.status = .active
    · by_cases hturn : onTheClock s = some pid
      · by_cases hfresh : ∀ q ∈ s.picks, q.itemId ≠ item
        · by_cases hcap : (s.picks.filter (fun q => q.participantId = pid)).length <
            s.league.maxPicksPerParticipant
          · obtain ⟨⟨hb0, hb1⟩, hu, hst⟩ := h
            obtain ⟨hlen, hall⟩ := hb1 sess hs
            have hpair : (committedPick s sess pid item now :: s.picks).Pairwise
                PickDistinct := by
              rw [List.pairwise_cons]
              refine ⟨fun b hb => ⟨?_, ?_⟩, hu⟩
              · have := hall b hb
                simp only [committedPick]
                omega
              · have := hfresh b hb
                simp only [committedPick]
                intro he
                exact this he.symm
            have hbounds : ∀ q ∈ committedPick s sess pid item now :: s.picks,
                q.pickOverall + 1 ≤ sess.currentPickOverall + 1 := by
              intro q hq
              rcases List.mem_cons.mp hq with rfl | hq
              · simp [committedPick]
              · have := hall q hq
                omega
            by_cases hlast : sess.totalPicks < sess.currentPickOverall + 1
            · rw [submitPick_commit_complete s sess pid item now hs hstat hturn
                hfresh hcap hlast]
              refine ⟨⟨fun hnone => by simp at hnone, fun sess2 hsess2 => ?_⟩,
                hpair, fun hcontra => by simp at hcontra⟩
              obtain rfl : _ = sess2 := Option.some.inj hsess2
              exact ⟨by simp; omega, hbounds⟩
            · rw [submitPick_commit_continue s sess pid item now hs hstat hturn
                hfresh hcap hlast]
              refine ⟨⟨fun hnone => by simp at hnone, fun sess2 hsess2 => ?_⟩,
                hpair, fun hcontra => ?_⟩
              · obtain rfl : _ = sess2 := Option.some.inj hsess2
                exact ⟨by simp; omega, hbounds⟩
              · have : s.session = none := hst hcontra
                rw [hs] at this
                cases this
          · rw [submitPick_at_cap s sess pid item now hs hstat hturn hfresh hcap]
            exact h
        · rw [submitPick_item_taken s sess pid item now hs hstat hturn hfresh]
          exact h
      · rw [submitPick_wrong_turn s sess pid item now hs hstat hturn]
        exact h
    · rw [submitPick_not_active s sess pid item now hs hstat]
      exact h

/-- Every reachable state satisfies the store invariant. -/
theorem reachable_inv {s : DraftState} (h : Reachable s) : Inv s := by
  induction h with
  | init creator cap => exact inv_initState creator cap
  | step hr hstep ih =>
    cases hstep with
    | join uid => exact inv_joinLeague _ uid ih
    | start r now => exact inv_startDraft _ r now ih
    | reset r => exact inv_resetDraft _ r ih
    | skip r => exact inv_skipDraft _ r ih
    | pick pid item now => exact inv_submitPick _ pid item now ih

theorem reach_lobbyState : Reachable lobbyState :=
  .step (.step (.step (.step (.init 0 2) (.join _ 1)) (.join _ 2)) (.join _ 3))
    (.join _ 4)

theorem reach_draftingState : Reachable draftingState :=
  .step reach_lobbyState (.start _ 0 100)

theorem reach_state1 : Reachable state1 :=
  .step reach_draftingState (.pick _ 1 11 101)

theorem reach_state2 : Reachable state2 :=
  .step reach_state1 (.pick _ 2 12 102)

theorem reach_state3 : Reachable state3 :=
  .step reach_state2 (.pick _ 3 13 103)

theorem reach_state4 : Reachable state4 :=
  .step reach_state3 (.pick _ 4 14 104)

theorem reach_state5 : Reachable state5 :=
  .step reach_state4 (.pick _ 4 15 105)

theorem reach_state6 : Reachable state6 :=
  .step reach_state5 (.pick _ 3 16 106)

theorem reach_state7 : Reachable state7 :=
  .step reach_state6 (.pick _ 2 17 107)

/-- C2: `submitPick` for a participant who is not on the clock (per the
snake-order calculator at the current `currentPickOverall` and live
participant count) always fails with `TurnViolation` and creates no Pick
row: the state, and in particular its pick list, is unchanged. -/
theorem submitPick_turn_enforcement (s : DraftState) (sess : DraftSession)
    (pid item now : Nat) (hs : s.session = some sess)
    (hstat : sess.status = .active) (hturn : onTheClock s ≠ some pid) :
    submitPick s pid item now = (s, .error .turnViolation) ∧
    (submitPick s pid item now).1.picks = s.picks := by
  have heq := submitPick_wrong_turn s sess pid item now hs hstat hturn
  exact ⟨heq, by rw [heq]⟩

/-- Witness for C2: in the 4-participant scenario at pick 1, user 2 is not
on the clock (user 1 is) and is rejected with `TurnViolation`. -/
theorem submitPick_turn_enforcement_witness :
    submitPick draftingState 2 42 200 = (draftingState, .error .turnViolation) ∧
    (submitPick draftingState 2 42 200).1.picks = draftingState.picks :=
  submitPick_turn_enforcement draftingState
    { currentPickOverall := 1, totalPicks := 8, status := .active
      startedAt := some 100, completedAt := none }
    2 42 200 (by decide) (by decide) (by decide)

/-- C3: in every reachable store state, no two Pick rows of the league
share a `pickOverall` and no two share an `itemId` — the per-league form
of the schema constraints `UNIQUE(league_id, draft_pick_overall)` and
`UNIQUE(league_id, school_id)`, preserved by every operation. -/
theorem picks_unique (s : DraftState) (h : Reachable s) :
    s.picks.Pairwise PickDistinct :=
  (reachable_inv h).2.1

/-- Witness for C3 at the reachable scenario state with two committed
picks. -/
theorem picks_unique_witness : state2.picks.Pairwise PickDistinct :=
  picks_unique state2 reach_state2

/-- C5: in every reachable store state that has a DraftSession, the number
of committed Pick rows equals `currentPickOverall - 1`. -/
theorem pick_count_matches (s : DraftState) (sess : DraftSession)
    (h : Reachable s) (hs : s.session = some sess) :
    s.picks.length = sess.currentPickOverall - 1 := by
  have hb := (reachable_inv h).1.2 sess hs
  omega

/-- Witness for C5 at the reachable scenario state with two committed
picks and `currentPickOverall = 3`. -/
theorem pick_count_matches_witness : state2.picks.length = 3 - 1 :=
  pick_count_matches state2
    { currentPickOverall := 3, totalPicks := 8, status := .active
      startedAt := some 100, completedAt := none }
    reach_state2 (by decide)

/-- C4: when a committed pick makes the new `currentPickOverall` exceed
`totalPicks`, the very same `submitPick` step marks the session complete,
sets `completedAt`, and sets the league active; and any subsequent pick
attempt against the resulting state fails with
`StateError(DRAFT_NOT_ACTIVE)`. -/
theorem submitPick_completes_draft (s : DraftState) (sess : DraftSession)
    (pid item now : Nat) (hs : s.session = some sess)
    (hstat : sess.status = .active) (hturn : onTheClock s = some pid)
    (hfresh : ∀ q ∈ s.picks, q.itemId ≠ item)
    (hcap : (s.picks.filter (fun q => q.participantId = pid)).length <
      s.league.maxPicksPerParticipant)
    (hlast : sess.totalPicks < sess.currentPickOverall + 1) :
    isOkE (submitPick s pid item now).2 = true ∧
    (submitPick s pid item now).1.league.status = .active ∧
    (submitPick s pid item now).1.session =
      some { currentPickOverall := sess.currentPickOverall + 1
             totalPicks := sess.totalPicks, status := .complete
             startedAt := sess.startedAt, completedAt := some now } ∧
    ∀ pid2 item2 now2,
      submitPick (submitPick s pid item now).1 pid2 item2 now2 =
        ((submitPick s pid item now).1, .error (.stateError .draftNotActive)) := by
  have heq := submitPick_commit_complete s sess pid item now hs hstat hturn
    hfresh hcap hlast
  rw [heq]
  refine ⟨rfl, rfl, rfl, fun pid2 item2 now2 => ?_⟩
  exact submitPick_not_active _ _ pid2 item2 now2 rfl (fun hcontra => nomatch hcontra)

/-- Witness for C4: the spec completion scenario — 4 participants, cap 2,
`totalPicks = 8`.  After 7 picks user 1 commits the 8th pick: the session
completes at `currentPickOverall = 9`, the league turns active, and a 9th
attempt (user 2, item 19) is rejected with `StateError(DRAFT_NOT_ACTIVE)`. -/
theorem submitPick_completes_draft_witness :
    isOkE (submitPick state7 1 18 108).2 = true ∧
    (submitPick state7 1 18 108).1.league.status = .active ∧
    (submitPick state7 1 18 108).1.session =
      some { currentPickOverall := 9, totalPicks := 8, status := .complete
             startedAt := some 100, completedAt := some 108 } ∧
    submitPick (submitPick state7 1 18 108).1 2 19 109 =
      ((submitPick state7 1 18 108).1, .error (.stateError .draftNotActive)) := by
  have h := submitPick_completes_draft state7
    { currentPickOverall := 8, totalPicks := 8, status := .active
      startedAt := some 100, completedAt := none }
    1 18 108 (by decide) (by decide) (by decide) (by decide) (by decide) (by decide)
  exact ⟨h.1, h.2.1, h.2.2.1, h.2.2.2 2 19 109⟩

/-- C6: `start_draft` succeeds exactly for the creator on a pre_draft
league with at least 2 joined participants (the condition also computed by
the frontend `canStartDraft` gate); it fails with `StateError` when the
league is not pre_draft, `AuthorizationError` when the requester is not
the creator, `ValidationError` with fewer than 2 participants, and every
failure leaves the state untouched. -/
theorem startDraft_requirements (s : DraftState) (r now : Nat) :
    (isOkE (startDraft s r now).2 = true ↔
      (s.league.status = .preDraft ∧ r = s.league.creator ∧
        2 ≤ s.participants.length)) ∧
    (∀ e, (startDraft s r now).2 = .error e → (startDraft s r now).1 = s) ∧
    (s.league.status ≠ .preDraft →
      (startDraft s r now).2 = .error (.stateError .invalidLifecycleState)) ∧
    (s.league.status = .preDraft → r ≠ s.league.creator →
      (startDraft s r now).2 = .error .authorizationError) ∧
    (s.league.status = .preDraft → r = s.league.creator →
      s.participants.length < 2 →
      (startDraft s r now).2 = .error .validationError) ∧
    (isOkE (startDraft s r now).2 = true ↔
      (s.league.status = .preDraft ∧
        canStartDraft (decide (r = s.league.creator)) s.participants.length = true)) := by
  unfold startDraft
  by_cases h1 : s.league.status = .preDraft
  · by_cases h2 : r = s.league.creator
    · by_cases h3 : 2 ≤ s.participants.length
      · rw [if_pos h1, if_pos h2, if_pos h3]
        simp [isOkE, canStartDraft, h1, h2, h3]
      · rw [if_pos h1, if_pos h2, if_neg h3]
        simp [isOkE, canStartDraft, h1, h2, h3]
    · rw [if_pos h1, if_neg h2]
      simp [isOkE, canStartDraft, h1, h2]
  · rw [if_neg h1]
    simp [isOkE, h1]

/-- Witness for C6: the lobby scenario league starts successfully for
creator 0 with 4 members, while a fresh 0-member league is rejected with
`ValidationError`. -/
theorem startDraft_requirements_witness :
    isOkE (startDraft lobbyState 0 5).2 = true ∧
    (startDraft (initState 7 2) 7 5).2 = .error .validationError :=
  ⟨(startDraft_requirements lobbyState 0 5).1.mpr ⟨rfl, rfl, by decide⟩,
   (startDraft_requirements (initState 7 2) 7 5).2.2.2.2.1 rfl rfl (by decide)⟩

/-- C7: `reset_draft` invoked by the creator on a drafting league removes
every Pick row, deletes the DraftSession, returns the league to pre_draft
and reports the number of picks removed. -/
theorem resetDraft_clears (s : DraftState) (r : Nat)
    (hst : s.league.status = .drafting) (hcr : r = s.league.creator) :
    (resetDraft s r).2 = .ok s.picks.length ∧
    (resetDraft s r).1.picks = [] ∧
    (resetDraft s r).1.session = none ∧
    (resetDraft s r).1.league.status = .preDraft ∧
    (resetDraft s r).1.participants = s.participants := by
  unfold resetDraft
  rw [if_pos hst, if_pos hcr]
  exact ⟨rfl, rfl, rfl, rfl, rfl⟩

/-- Witness for C7: resetting the scenario league after 5 committed picks
removes exactly 5 picks, clears the session and returns to pre_draft. -/
theorem resetDraft_clears_witness :
    (resetDraft state5 0).2 = .ok 5 ∧
    (resetDraft state5 0).1.picks = [] ∧
    (resetDraft state5 0).1.session = none ∧
    (resetDraft state5 0).1.league.status = .preDraft ∧
    (resetDraft state5 0).1.participants = state5.participants :=
  resetDraft_clears state5 0 (by decide) (by decide)

/-- C9: on a draft-state-changed notification the observer re-fetches the
four query operations (my teams, draft board, draft status, available
items) from the authoritative state and ignores the notification payload,
so the resulting client view depends only on the server state at the last
handled notification: any duplicated, dropped or reordered earlier
deliveries leave the final view unchanged. -/
theorem observers_refetch (catalog : List Nat) (uid : Nat) (init : Snapshot)
    (prior : List (String × DraftState)) (lastPayload : String)
    (lastServer : DraftState) :
    (List.foldl (fun c d => handleDraftUpdate d.1 catalog d.2 uid c) init
      (prior ++ [(lastPayload, lastServer)]) = refetchAll catalog lastServer uid) ∧
    (∀ pay srv c, handleDraftUpdate pay catalog srv uid c =
      { myTeams := getMyTeams srv uid
        board := getDraftBoard srv
        status := getDraftStatus srv uid
        available := getAvailableItems catalog srv }) ∧
    (∀ pay1 pay2 srv c1 c2, handleDraftUpdate pay1 catalog srv uid c1 =
      handleDraftUpdate pay2 catalog srv uid c2) := by
  refine ⟨?_, fun pay srv c => rfl, fun pay1 pay2 srv c1 c2 => rfl⟩
  rw [List.foldl_append]
  rfl

end Pick6
